import Mathlib

/-!
Shallow embedding of `src/merge_tools.rs` (jj's external merge-tool /
diff-editor integration), for checking the specification's claims about
conflict reconciliation, tool-configuration resolution and argument
interpolation.

Conventions of the embedding:
* byte blobs are `List Nat`;
* a `RepoPath` is its list of components;
* fallible operations return `Except`;
* the external collaborators (object store, filesystem, UI, and the
  external tool process) are oracles: structures of functions supplied
  by the caller, so that theorems can quantify over their behaviour;
* the content-addressed tree is an association list from paths to tree
  values; `tree_builder(base).set(path, v).write_tree()` is embedded as
  consing `(path, v)` in front of the base tree's entries, which has the
  same lookup denotation as copying the tree and replacing one path.
-/

namespace MergeTools

/-- Raw I/O errors (`std::io::Error`), abstracted to their message. -/
abbrev IoErr : Type := String

/-- Backend errors (`jujutsu_lib::backend::BackendError`), abstracted. -/
abbrev BackendErr : Type := String

/-- Embeds `config::ConfigError`: the variants `run_mergetool`'s settings lookups
distinguish (`NotFound` triggers the default-editor fallback, everything
else propagates). -/
inductive ConfigErr where
  | NotFound (key : String)
  | Message (msg : String)
deriving DecidableEq, Repr

/-- Embeds `std::process::ExitStatus`: success flag plus optional numeric code
(the code is `none` when e.g. the process was killed by a signal). -/
structure ExitStatus where
  success : Bool
  code : Option Int
deriving DecidableEq, Repr

/-- Embeds `ExternalToolError` from `merge_tools.rs` (lines 40–71). -/
inductive ExternalToolError where
  | ConfigError (e : ConfigErr)
  | MergeArgsNotConfigured (tool_name : String)
  | SetUpDirError (e : IoErr)
  | FailedToExecute (tool_binary : String) (source : IoErr)
  | ToolAborted (exit_status : ExitStatus)
  | IoError (e : IoErr)
deriving DecidableEq, Repr

/-- A repository path, as its list of components (`RepoPath`). -/
abbrev RepoPath : Type := List String

/-- Embeds `ConflictResolveError` from `merge_tools.rs` (lines 83–112). -/
inductive ConflictResolveError where
  | ExternalToolError (e : ExternalToolError)
  | PathNotFoundError (path : RepoPath)
  | NotAConflictError (path : RepoPath)
  | NotNormalFilesError (path : RepoPath) (summary : String)
  | ConflictTooComplicatedError (path : RepoPath) (removes : Nat) (adds : Nat)
  | EmptyOrUnchanged
  | BackendError (e : BackendErr)
deriving DecidableEq, Repr

/-- A byte blob (file content). -/
abbrev Blob : Type := List Nat

/-- Embeds `TreeValue`: the kinds of entry a tree maps a path to.  Conflicts and
files carry the identifier the store assigned; other kinds (subtrees,
symlinks, ...) are lumped together since `run_mergetool` only
distinguishes conflict / non-conflict. -/
inductive TreeValue where
  | File (id : Nat) (executable : Bool)
  | Conflict (id : Nat)
  | OtherEntry (id : Nat)
deriving DecidableEq, Repr

/-- An immutable tree object: an association list from paths to values
(first match wins). -/
structure Tree where
  entries : List (RepoPath × TreeValue)
deriving DecidableEq, Repr

/-- First-match lookup in a tree's entry list. -/
def lookup_entries : List (RepoPath × TreeValue) → RepoPath → Option TreeValue
  | [], _ => none
  | e :: rest, p => if e.1 = p then some e.2 else lookup_entries rest p

/-- Embeds `Tree::path_value`. -/
def Tree.path_value (t : Tree) (p : RepoPath) : Option TreeValue :=
  lookup_entries t.entries p

/-- Embeds `store.tree_builder(tree.id()).set(path, v).write_tree()`: the new tree
denotes the old mapping with `path` now mapped to `v`. -/
def Tree.set (t : Tree) (p : RepoPath) (v : TreeValue) : Tree :=
  ⟨(p, v) :: t.entries⟩

/-- The single hunk extracted from a file conflict
(`extract_file_conflict_as_single_hunk`): ordered remove and add blobs. -/
structure ConflictHunk where
  removes : List Blob
  adds : List Blob
deriving DecidableEq, Repr

/-- The object store and the conflict helpers of `jujutsu_lib`, as an
oracle.  `Conflict` objects themselves are abstracted to tokens (`Nat`);
only these operations inspect them. -/
structure Store where
  read_conflict : RepoPath → Nat → Except BackendErr Nat
  extract_file_conflict_as_single_hunk : RepoPath → Nat → Option ConflictHunk
  describe_conflict : Nat → String
  materialize_merge_result : ConflictHunk → Blob
  update_conflict_from_content : RepoPath → Nat → Blob → Except BackendErr (Option Nat)
  write_file : RepoPath → Blob → Except BackendErr Nat

/-- Merge/diff tool loaded from the settings (`struct MergeTool`). -/
structure MergeTool where
  program : String
  edit_args : List String
  merge_args : List String
  merge_tool_edits_conflict_markers : Bool
deriving DecidableEq, Repr

/-- Embeds `MergeTool::with_program`. -/
def MergeTool.with_program (program : String) : MergeTool :=
  { program := program
  , edit_args := []
  , merge_args := []
  , merge_tool_edits_conflict_markers := false }

/-- The settings source (`UserSettings`), as an oracle: `get_string`
lookups, and the result of `get_table("merge-tools")`.  A table entry is
the outcome of `try_deserialize` on the stored value: either a
deserialization error message or a `MergeTool`. -/
structure UserSettings where
  get_string : String → Except ConfigErr String
  merge_tools_table : Except ConfigErr (String → Option (Except String MergeTool))

/-- The UI, reduced to the one effect `merge_tools.rs` uses: writing a
hint line (which, being I/O, can fail). -/
structure Ui where
  hint_result : Except IoErr Unit

/-- Filesystem oracle for the scratch workspace. -/
structure Fs where
  mk_temp_dir : Except IoErr String
  write : String → Blob → Except IoErr Unit
  set_readonly : String → Except IoErr Unit

/-- The external tool process, as an oracle: spawning it yields an exit
status (or a spawn failure), and afterwards the `output` role file holds
whatever the tool left there (reading it back can fail). -/
structure ToolOracle where
  spawn : String → List String → Except IoErr ExitStatus
  read_output : Except IoErr Blob

def mergeEditorKey : String := "ui.merge-editor"
def diffEditorKey : String := "ui.diff-editor"
def mergeToolsTableKey : String := "merge-tools"
def defaultEditorName : String := "meld"

/-- Embeds `editor_name_from_settings` (lines 465–484): look the key up; on
`NotFound` fall back to `"meld"` after printing a hint; other
configuration errors propagate. -/
def editor_name_from_settings (ui : Ui) (settings : UserSettings) (key : String) :
    Except ExternalToolError String :=
  match settings.get_string key with
  | .ok editor_binary => .ok editor_binary
  | .error (.NotFound _) =>
    match ui.hint_result with
    | .error e => .error (.IoError e)
    | .ok _ => .ok defaultEditorName
  | .error err => .error (.ConfigError err)

/-- Embeds `get_tool_config` (lines 422–439): look the name up under
`merge-tools`; deserialize, defaulting an empty `program` to the name;
with no entry, synthesize `MergeTool::with_program(name)`. -/
def get_tool_config (settings : UserSettings) (name : String) :
    Except ConfigErr MergeTool :=
  match settings.merge_tools_table with
  | .error e => .error e
  | .ok tools_table =>
    match tools_table name with
    | some v =>
      match v with
      | .error e => .error (.Message (mergeToolsTableKey ++ "." ++ name ++ ": " ++ e))
      | .ok result =>
        if result.program.isEmpty then .ok { result with program := name }
        else .ok result
    | none => .ok (MergeTool.with_program name)

/-- Embeds `get_diff_editor_from_settings` (lines 441–447). -/
def get_diff_editor_from_settings (ui : Ui) (settings : UserSettings) :
    Except ExternalToolError MergeTool :=
  match editor_name_from_settings ui settings diffEditorKey with
  | .error e => .error e
  | .ok editor_name =>
    match get_tool_config settings editor_name with
    | .error e => .error (.ConfigError e)
    | .ok editor => .ok editor

/-- Embeds `get_merge_tool_from_settings` (lines 449–462): like the diff-editor
resolution, but additionally reject a tool whose `merge_args` is empty. -/
def get_merge_tool_from_settings (ui : Ui) (settings : UserSettings) :
    Except ExternalToolError MergeTool :=
  match editor_name_from_settings ui settings mergeEditorKey with
  | .error e => .error e
  | .ok editor_name =>
    match get_tool_config settings editor_name with
    | .error e => .error (.ConfigError e)
    | .ok editor =>
      if editor.merge_args.isEmpty then
        .error (.MergeArgsNotConfigured editor_name)
      else .ok editor

/-- Embeds the interpolator's first-character test: strip a leading dollar sign, returning the remainder. -/
def strip_dollar (s : String) : Option String :=
  match s.data with
  | [] => none
  | c :: rest => if c = '$' then some (String.mk rest) else none

/-- One argument of `interpolate_mergetool_filename_patterns` (lines
279–298): if the whole argument is `$` followed by a known role, replace
it by that role's path; otherwise pass it through unchanged. -/
def interpolate_arg (paths : String → Option String) (arg : String) : String :=
  match strip_dollar arg with
  | some p =>
    match paths p with
    | some path => path
    | none => arg
  | none => arg

/-- Embeds `interpolate_mergetool_filename_patterns` (lines 279–298), at the
`String` instantiation `run_mergetool` uses. -/
def interpolate_mergetool_filename_patterns (merge_args : List String)
    (paths : String → Option String) : List String :=
  merge_args.map (interpolate_arg paths)

def baseRole : String := "base"
def rightRole : String := "right"
def leftRole : String := "left"
def outputRole : String := "output"

/-- The four role files and their contents (`maplit::hashmap!` at lines
202–207).  `Vec::pop` takes the last element, so `base` is the last (and,
the shape check having passed, only) remove; `right` is the last add;
`left` is the last of the remaining adds. -/
structure RoleFileSet where
  base : Blob
  right : Blob
  left : Blob
  output : Blob
deriving DecidableEq, Repr

/-- Builds the `files` map of `run_mergetool` (lines 202–207). -/
def role_file_contents (removes adds : List Blob) (initial_output : Blob) :
    RoleFileSet :=
  { base := (removes.getLast?).getD []
  , right := (adds.getLast?).getD []
  , left := (adds.dropLast.getLast?).getD []
  , output := initial_output }

/-- Embeds `format!("_{}", filename)` over the path's last component, or empty
for the root path (lines 213–219). -/
def path_suffix (repo_path : RepoPath) : String :=
  match List.getLast? repo_path with
  | some filename => "_" ++ filename
  | none => ""

/-- Embeds the scratch-file path join: temp dir, slash, role name, suffix. -/
def role_path (temp_dir suffix role : String) : String :=
  temp_dir ++ "/" ++ role ++ suffix

/-- The `paths` map of `run_mergetool` (lines 220–231): defined exactly on
the four roles of the `files` map. -/
def role_paths (temp_dir suffix : String) : String → Option String := fun role =>
  if role = baseRole ∨ role = rightRole ∨ role = leftRole ∨ role = outputRole
  then some (role_path temp_dir suffix role) else none

/-- Write one role file; inputs (every role except `output`) are then
marked read-only (lines 222–229). -/
def write_role_file (fs : Fs) (path : String) (contents : Blob) (readonly : Bool) :
    Except IoErr Unit :=
  match fs.write path contents with
  | .error e => .error e
  | .ok _ => if readonly then fs.set_readonly path else .ok ()

/-- Write the four role files (the source iterates a `HashMap`, whose
order is unspecified; a fixed order is used here — only which of several
simultaneous I/O failures surfaces could depend on it). -/
def write_role_files (fs : Fs) (temp_dir suffix : String) (files : RoleFileSet) :
    Except IoErr Unit :=
  match write_role_file fs (role_path temp_dir suffix baseRole) files.base true with
  | .error e => .error e
  | .ok _ =>
    match write_role_file fs (role_path temp_dir suffix rightRole) files.right true with
    | .error e => .error e
    | .ok _ =>
      match write_role_file fs (role_path temp_dir suffix leftRole) files.left true with
      | .error e => .error e
      | .ok _ =>
        write_role_file fs (role_path temp_dir suffix outputRole) files.output false

/-- Step 1 of `run_mergetool` (lines 163–167): locate the conflict. -/
def locate_conflict (tree : Tree) (repo_path : RepoPath) :
    Except ConflictResolveError Nat :=
  match tree.path_value repo_path with
  | some (TreeValue.Conflict conflict_id) => .ok conflict_id
  | some _ => .error (.NotAConflictError repo_path)
  | none => .error (.PathNotFoundError repo_path)

/-- Embeds `run_mergetool` (lines 157–277).  The store is `tree.store()`, passed
explicitly; `fs` and `tool` are the filesystem and external-process
oracles.  Note that the source's `new_tree_value.unwrap_or({...})`
evaluates its argument eagerly, so the output file is written to the
store (and its errors surface) even when the reparsed conflict value is
used; the re-read of the output file for `write_file` returns the bytes
already read. -/
def run_mergetool (ui : Ui) (store : Store) (tree : Tree) (repo_path : RepoPath)
    (settings : UserSettings) (fs : Fs) (tool : ToolOracle) :
    Except ConflictResolveError Tree :=
  match locate_conflict tree repo_path with
  | .error e => .error e
  | .ok conflict_id =>
    match store.read_conflict repo_path conflict_id with
    | .error e => .error (.BackendError e)
    | .ok conflict =>
      match store.extract_file_conflict_as_single_hunk repo_path conflict with
      | none =>
        .error (.NotNormalFilesError repo_path (store.describe_conflict conflict))
      | some content =>
        if content.removes.length > 1 ∨ content.adds.length > 2 then
          .error (.ConflictTooComplicatedError repo_path
            content.removes.length content.adds.length)
        else
          match get_merge_tool_from_settings ui settings with
          | .error e => .error (.ExternalToolError e)
          | .ok editor =>
            let initial_output_content : Blob :=
              if editor.merge_tool_edits_conflict_markers
              then store.materialize_merge_result content else []
            let files := role_file_contents content.removes content.adds
              initial_output_content
            match fs.mk_temp_dir with
            | .error e => .error (.ExternalToolError (.SetUpDirError e))
            | .ok temp_dir =>
              let suffix := path_suffix repo_path
              match write_role_files fs temp_dir suffix files with
              | .error e => .error (.ExternalToolError (.SetUpDirError e))
              | .ok _ =>
                let args := interpolate_mergetool_filename_patterns
                  editor.merge_args (role_paths temp_dir suffix)
                match tool.spawn editor.program args with
                | .error e =>
                  .error (.ExternalToolError (.FailedToExecute editor.program e))
                | .ok exit_status =>
                  if !exit_status.success then
                    .error (.ExternalToolError (.ToolAborted exit_status))
                  else
                    match tool.read_output with
                    | .error e => .error (.ExternalToolError (.IoError e))
                    | .ok output_file_contents =>
                      if output_file_contents = [] ∨
                          output_file_contents = initial_output_content then
                        .error .EmptyOrUnchanged
                      else
                        match (if editor.merge_tool_edits_conflict_markers then
                            store.update_conflict_from_content repo_path
                              conflict_id output_file_contents
                          else .ok none) with
                        | .error e => .error (.BackendError e)
                        | .ok conflict_value =>
                          match store.write_file repo_path output_file_contents with
                          | .error e => .error (.BackendError e)
                          | .ok new_file_id =>
                            let new_tree_value :=
                              match conflict_value with
                              | some new_conflict_id =>
                                TreeValue.Conflict new_conflict_id
                              | none => TreeValue.File new_file_id false
                            .ok (tree.set repo_path new_tree_value)

/-- The display of `ExternalToolError::ToolAborted`'s exit code: the
numeric code when there is one, otherwise the literal `<unknown>`
(line 64). -/
def exit_code_display (st : ExitStatus) : String :=
  match st.code with
  | some c => toString c
  | none => "<unknown>"

/-- The rendered `ToolAborted` error message (lines 62–68). -/
def tool_aborted_message (st : ExitStatus) : String :=
  "Tool exited with a non-zero code (run with --verbose to see the exact invocation). Exit code: "
    ++ exit_code_display st ++ "."

/-! ### Helper lemmas -/

def baseSigil : String := "$base"
def leftSigil : String := "$left"
def rightSigil : String := "$right"
def outputSigil : String := "$output"

lemma strip_dollar_some {arg p : String} (h : strip_dollar arg = some p) :
    arg = String.mk ('$' :: p.data) := by
  obtain ⟨d⟩ := arg
  cases d with
  | nil => simp [strip_dollar] at h
  | cons c rest =>
    by_cases hc : c = '$'
    · subst hc
      simp [strip_dollar] at h
      subst h
      rfl
    · simp [strip_dollar, hc] at h

lemma interpolate_arg_self (d s : String) (arg : String)
    (h1 : arg ≠ baseSigil) (h2 : arg ≠ leftSigil)
    (h3 : arg ≠ rightSigil) (h4 : arg ≠ outputSigil) :
    interpolate_arg (role_paths d s) arg = arg := by
  unfold interpolate_arg
  cases hsd : strip_dollar arg with
  | none => rfl
  | some p =>
    have harg := strip_dollar_some hsd
    by_cases hb : p = baseRole
    · exact absurd (by rw [harg, hb]; rfl) h1
    · by_cases hr : p = rightRole
      · exact absurd (by rw [harg, hr]; rfl) h3
      · by_cases hl : p = leftRole
        · exact absurd (by rw [harg, hl]; rfl) h2
        · by_cases ho : p = outputRole
          · exact absurd (by rw [harg, ho]; rfl) h4
          · simp [role_paths, hb, hr, hl, ho]

lemma write_role_files_ok (fs : Fs) (d s : String) (files : RoleFileSet)
    (hw : ∀ q c, fs.write q c = .ok ()) (hro : ∀ q, fs.set_readonly q = .ok ()) :
    write_role_files fs d s files = .ok () := by
  simp [write_role_files, write_role_file, hw, hro]

lemma Tree.path_value_set_self (t : Tree) (p : RepoPath) (v : TreeValue) :
    (t.set p v).path_value p = some v := by
  simp [Tree.set, Tree.path_value, lookup_entries]

lemma Tree.path_value_set_ne (t : Tree) (p q : RepoPath) (v : TreeValue)
    (h : q ≠ p) : (t.set p v).path_value q = t.path_value q := by
  simp only [Tree.set, Tree.path_value, lookup_entries]
  rw [if_neg (fun hh => h hh.symm)]

/-! ### Concrete fixtures for witnesses -/

def path0 : RepoPath := ["dir", "file"]
def blobR : Blob := [1]
def blobA : Blob := [2]
def blobB : Blob := [3]
def markersBlob : Blob := [7, 7]

def tree0 : Tree := ⟨[(path0, TreeValue.Conflict 1), (["other"], TreeValue.File 9 false)]⟩

def hunk0 : ConflictHunk := ⟨[blobR], [blobA, blobB]⟩
def hunkBig : ConflictHunk := ⟨[blobR, blobR], [blobA, blobB, blobB]⟩

def store0 : Store :=
  { read_conflict := fun _ _ => .ok 0
  , extract_file_conflict_as_single_hunk := fun _ _ => some hunk0
  , describe_conflict := fun _ => ""
  , materialize_merge_result := fun _ => markersBlob
  , update_conflict_from_content := fun _ _ _ => .ok none
  , write_file := fun _ _ => .ok 42 }

def storeBig : Store :=
  { store0 with extract_file_conflict_as_single_hunk := fun _ _ => some hunkBig }

def storeUpdSome : Store :=
  { store0 with update_conflict_from_content := fun _ _ _ => .ok (some 5) }

def fs0 : Fs := ⟨.ok ("/tmp/jj-resolve-x"), fun _ _ => .ok (), fun _ => .ok ()⟩

def mytool : MergeTool :=
  { program := "mytool-bin"
  , edit_args := []
  , merge_args := ["$left", "$output"]
  , merge_tool_edits_conflict_markers := false }

def mytoolMarkers : MergeTool :=
  { mytool with merge_tool_edits_conflict_markers := true }

def settings0 : UserSettings :=
  { get_string := fun k => if k = mergeEditorKey then .ok ("mytool")
      else .error (.NotFound k)
  , merge_tools_table :=
      .ok (fun n => if n = "mytool" then some (.ok mytool) else none) }

def settingsMarkers : UserSettings :=
  { get_string := settings0.get_string
  , merge_tools_table :=
      .ok (fun n => if n = "mytool" then some (.ok mytoolMarkers) else none) }

def tool0 : ToolOracle := ⟨fun _ _ => .ok ⟨true, some 0⟩, .ok (blobA ++ [9])⟩
def toolFail : ToolOracle := ⟨fun _ _ => .ok ⟨false, none⟩, .ok []⟩
def toolEmptyOut : ToolOracle := ⟨fun _ _ => .ok ⟨true, some 0⟩, .ok []⟩
def toolPartial : ToolOracle := ⟨fun _ _ => .ok ⟨true, some 0⟩, .ok [5, 5]⟩

/-! ### Claims -/

/-- C6: an argument is replaced wholesale by the corresponding role's path
exactly when it is literally one of `$base`, `$left`, `$right`,
`$output`; every other argument — including one that merely contains a
sigil as a substring or prefixes an unknown role with `$` — is passed
through unchanged. -/
theorem interpolationWholeArgOnly (d s : String) :
    interpolate_arg (role_paths d s) baseSigil = role_path d s baseRole ∧
    interpolate_arg (role_paths d s) leftSigil = role_path d s leftRole ∧
    interpolate_arg (role_paths d s) rightSigil = role_path d s rightRole ∧
    interpolate_arg (role_paths d s) outputSigil = role_path d s outputRole ∧
    (∀ arg, arg ≠ baseSigil → arg ≠ leftSigil → arg ≠ rightSigil →
      arg ≠ outputSigil → interpolate_arg (role_paths d s) arg = arg) ∧
    (∀ args, interpolate_mergetool_filename_patterns args (role_paths d s) =
      args.map (interpolate_arg (role_paths d s))) :=
  ⟨rfl, rfl, rfl, rfl, interpolate_arg_self d s, fun _ => rfl⟩

/-- Witness for C6 at concrete arguments: the literal sigil `$left` is
replaced, while an argument embedding a sigil, one with an unknown role,
and a plain flag all pass through unchanged. -/
theorem interpolationWholeArgOnly_w :
    interpolate_arg (role_paths ("/tmp/jj-resolve-x") ("_file")) leftSigil
      = role_path ("/tmp/jj-resolve-x") ("_file") leftRole ∧
    interpolate_arg (role_paths ("/tmp/jj-resolve-x") ("_file")) ("a$left") = "a$left" ∧
    interpolate_arg (role_paths ("/tmp/jj-resolve-x") ("_file")) ("$leftx") = "$leftx" ∧
    interpolate_arg (role_paths ("/tmp/jj-resolve-x") ("_file")) ("-o") = "-o" :=
  ⟨(interpolationWholeArgOnly ("/tmp/jj-resolve-x") ("_file")).2.1,
   (interpolationWholeArgOnly ("/tmp/jj-resolve-x") ("_file")).2.2.2.2.1 ("a$left")
     (by decide) (by decide) (by decide) (by decide),
   (interpolationWholeArgOnly ("/tmp/jj-resolve-x") ("_file")).2.2.2.2.1 ("$leftx")
     (by decide) (by decide) (by decide) (by decide),
   (interpolationWholeArgOnly ("/tmp/jj-resolve-x") ("_file")).2.2.2.2.1 ("-o")
     (by decide) (by decide) (by decide) (by decide)⟩

def ui0 : Ui := ⟨.ok ()⟩

/-- The `meld` tool configuration that jj's built-in default config ships
(shown in the `test_get_merge_tool` snapshot). -/
def meldTool : MergeTool :=
  { program := "meld"
  , edit_args := []
  , merge_args := ["$left", "$base", "$right", "-o", "$output", "--auto-merge"]
  , merge_tool_edits_conflict_markers := false }

/-- A settings source in which `ui.merge-editor` is absent but the
`merge-tools` table configures `meld`, as jj's built-in default
configuration does. -/
def settingsDefaultMeld : UserSettings :=
  { get_string := fun k => .error (.NotFound k)
  , merge_tools_table :=
      .ok (fun n => if n = defaultEditorName then some (.ok meldTool) else none) }

/-- C1 counterexample: in a settings source where `ui.merge-editor` is
absent, merge-editor resolution falls back to the implicit default tool
name `meld`; when the settings configure `merge-tools.meld` with
non-empty merge arguments (as jj's built-in defaults do) resolution
succeeds with a usable tool spec instead of failing. -/
theorem mergeEditorNoDefault_cex :
    settingsDefaultMeld.get_string mergeEditorKey
        = .error (.NotFound mergeEditorKey) ∧
    get_merge_tool_from_settings ui0 settingsDefaultMeld = .ok meldTool ∧
    meldTool.merge_args ≠ [] :=
  ⟨rfl, rfl, by decide⟩

/-- C1 (amended): when `ui.merge-editor` is absent, merge-editor
resolution falls back to the default tool name `meld` (after emitting a
hint) rather than failing outright; it then fails — with the
merge-arguments-not-configured error naming `meld` — when the resolved
`meld` configuration has empty merge arguments, in particular when no
`merge-tools.meld` entry exists. -/
theorem mergeEditorAbsentFallsBackToMeld (ui : Ui) (settings : UserSettings)
    (k : String) (tbl : String → Option (Except String MergeTool))
    (habs : settings.get_string mergeEditorKey = .error (.NotFound k))
    (hhint : ui.hint_result = .ok ())
    (htbl : settings.merge_tools_table = .ok tbl)
    (hmeld : tbl defaultEditorName = none) :
    editor_name_from_settings ui settings mergeEditorKey = .ok defaultEditorName ∧
    get_merge_tool_from_settings ui settings =
      .error (.MergeArgsNotConfigured defaultEditorName) := by
  have hname : editor_name_from_settings ui settings mergeEditorKey
      = .ok defaultEditorName := by
    simp [editor_name_from_settings, habs, hhint]
  refine ⟨hname, ?_⟩
  simp [get_merge_tool_from_settings, hname, get_tool_config, htbl, hmeld,
    MergeTool.with_program]

/-- A settings source with no `ui.merge-editor` key and no `merge-tools`
entries at all. -/
def settingsBare : UserSettings :=
  { get_string := fun k => .error (.NotFound k)
  , merge_tools_table := .ok (fun _ => none) }

/-- Witness for the amended C1 at a concrete bare settings source. -/
theorem mergeEditorAbsentFallsBackToMeld_w :
    editor_name_from_settings ui0 settingsBare mergeEditorKey
        = .ok defaultEditorName ∧
    get_merge_tool_from_settings ui0 settingsBare =
      .error (.MergeArgsNotConfigured defaultEditorName) :=
  mergeEditorAbsentFallsBackToMeld ui0 settingsBare mergeEditorKey (fun _ => none)
    rfl rfl rfl rfl

/-- C7: a tool resolved for the merge-editor role whose `merge_args` list
is empty makes resolution fail with the merge-arguments-not-configured
error naming that tool, whereas for the diff-editor role a tool with
empty `edit_args` resolves successfully. -/
theorem mergeArgsRequiredDiffArgsNot (ui : Ui) (settings : UserSettings)
    (mname dname : String) (mtool dtool : MergeTool)
    (hm : editor_name_from_settings ui settings mergeEditorKey = .ok mname)
    (hmc : get_tool_config settings mname = .ok mtool)
    (hme : mtool.merge_args = [])
    (hd : editor_name_from_settings ui settings diffEditorKey = .ok dname)
    (hdc : get_tool_config settings dname = .ok dtool)
    (_hde : dtool.edit_args = []) :
    get_merge_tool_from_settings ui settings
        = .error (.MergeArgsNotConfigured mname) ∧
    get_diff_editor_from_settings ui settings = .ok dtool := by
  constructor
  · simp [get_merge_tool_from_settings, hm, hmc, hme]
  · simp [get_diff_editor_from_settings, hd, hdc]

/-- A settings source naming both editors, with no `merge-tools` entries,
so both tools resolve to bare program names with empty argument lists. -/
def settingsBothEditors : UserSettings :=
  { get_string := fun k =>
      if k = mergeEditorKey then .ok ("mymerge")
      else if k = diffEditorKey then .ok ("mydiff")
      else .error (.NotFound k)
  , merge_tools_table := .ok (fun _ => none) }

/-- Witness for C7: `mymerge` (empty merge args) is rejected while
`mydiff` (empty edit args) resolves. -/
theorem mergeArgsRequiredDiffArgsNot_w :
    get_merge_tool_from_settings ui0 settingsBothEditors
        = .error (.MergeArgsNotConfigured ("mymerge")) ∧
    get_diff_editor_from_settings ui0 settingsBothEditors
        = .ok (MergeTool.with_program ("mydiff")) :=
  mergeArgsRequiredDiffArgsNot ui0 settingsBothEditors ("mymerge") ("mydiff")
    (MergeTool.with_program ("mymerge")) (MergeTool.with_program ("mydiff"))
    rfl rfl rfl rfl rfl rfl

/-- C10: interpolation preserves arity and order — the produced list has
the same length as the template list, and each position is the
interpolation of the template element at that position alone. -/
theorem interpolationPreservesArityOrder (args : List String)
    (paths : String → Option String) :
    (interpolate_mergetool_filename_patterns args paths).length = args.length ∧
    ∀ i (h : i < args.length),
      (interpolate_mergetool_filename_patterns args paths).get
          ⟨i, by simpa [interpolate_mergetool_filename_patterns] using h⟩ =
        interpolate_arg paths (args.get ⟨i, h⟩) := by
  constructor
  · simp [interpolate_mergetool_filename_patterns]
  · intro i h
    simp [interpolate_mergetool_filename_patterns]

/-- Witness for C10 at a concrete template list. -/
theorem interpolationPreservesArityOrder_w :
    (interpolate_mergetool_filename_patterns ["$left", "-o", "$output"]
        (role_paths ("/t") (""))).length = 3 ∧
    (interpolate_mergetool_filename_patterns ["$left", "-o", "$output"]
        (role_paths ("/t") (""))).get ⟨1, by decide⟩ =
      interpolate_arg (role_paths ("/t") ("")) (["$left", "-o", "$output"].get ⟨1, by decide⟩) :=
  ⟨(interpolationPreservesArityOrder ["$left", "-o", "$output"] (role_paths ("/t") (""))).1,
   (interpolationPreservesArityOrder ["$left", "-o", "$output"] (role_paths ("/t") (""))).2
     1 (by decide)⟩

/-- C3: a conflict whose extracted hunk has more than 1 remove or more
than 2 adds makes reconciliation fail with the too-complicated error
carrying the path and the exact remove and add counts; the result is
this same error for every settings source, UI, filesystem and tool
oracle — so no external tool is invoked and no new tree is produced. -/
theorem tooComplicatedRejectsBeforeTool (store : Store) (tree : Tree)
    (p : RepoPath) (cid conflict : Nat) (hunk : ConflictHunk)
    (h1 : tree.path_value p = some (TreeValue.Conflict cid))
    (h2 : store.read_conflict p cid = .ok conflict)
    (h3 : store.extract_file_conflict_as_single_hunk p conflict = some hunk)
    (h4 : hunk.removes.length > 1 ∨ hunk.adds.length > 2) :
    ∀ (ui : Ui) (settings : UserSettings) (fs : Fs) (tool : ToolOracle),
      run_mergetool ui store tree p settings fs tool =
        .error (.ConflictTooComplicatedError p
          hunk.removes.length hunk.adds.length) := by
  intro ui settings fs tool
  simp only [run_mergetool, locate_conflict, h1, h2, h3]
  rw [if_pos h4]

/-- Witness for C3: a hunk with 2 removes and 3 adds is rejected with the
exact counts, at a concrete settings/fs/tool instantiation. -/
theorem tooComplicatedRejectsBeforeTool_w :
    run_mergetool ui0 storeBig tree0 path0 settings0 fs0 tool0 =
      .error (.ConflictTooComplicatedError path0 2 3) :=
  tooComplicatedRejectsBeforeTool storeBig tree0 path0 1 0 hunkBig rfl rfl rfl
    (by decide) ui0 settings0 fs0 tool0

/-- C9: every successful reconciliation returns a tree obtained from the
original by replacing exactly the conflicted path's value — equal to the
original at every other path — and the replacement is a conflict value or
a non-executable file; the original tree object is untouched (the result
is built by `Tree.set`, a copy). -/
theorem successfulRunFrameCondition (ui : Ui) (store : Store) (tree : Tree)
    (p : RepoPath) (settings : UserSettings) (fs : Fs) (tool : ToolOracle)
    (t' : Tree)
    (h : run_mergetool ui store tree p settings fs tool = .ok t') :
    ∃ v, t' = tree.set p v ∧ t'.path_value p = some v ∧
      (∀ q, q ≠ p → t'.path_value q = tree.path_value q) ∧
      ((∃ i, v = TreeValue.Conflict i) ∨ (∃ fid, v = TreeValue.File fid false)) := by
  simp only [run_mergetool, locate_conflict] at h
  repeat' split at h
  all_goals try exact Except.noConfusion h
  all_goals
    injection h with h
    subst h
    refine ⟨_, rfl, Tree.path_value_set_self _ _ _,
      fun q hq => Tree.path_value_set_ne _ _ _ _ hq, ?_⟩
  all_goals first
    | exact Or.inl ⟨_, rfl⟩
    | exact Or.inr ⟨_, rfl⟩

/-- Witness for C9: a concrete successful run replaces `path0`'s value
with a file and leaves the other entry of the tree unchanged. -/
theorem successfulRunFrameCondition_w :
    run_mergetool ui0 store0 tree0 path0 settings0 fs0 tool0 =
      .ok (tree0.set path0 (TreeValue.File 42 false)) ∧
    ∃ v, tree0.set path0 (TreeValue.File 42 false) = tree0.set path0 v ∧
      (tree0.set path0 (TreeValue.File 42 false)).path_value path0 = some v ∧
      (∀ q, q ≠ path0 →
        (tree0.set path0 (TreeValue.File 42 false)).path_value q =
          tree0.path_value q) ∧
      ((∃ i, v = TreeValue.Conflict i) ∨ (∃ fid, v = TreeValue.File fid false)) :=
  ⟨rfl, successfulRunFrameCondition ui0 store0 tree0 path0 settings0 fs0 tool0
    (tree0.set path0 (TreeValue.File 42 false)) rfl⟩

/-- C2: the RoleFileSet built by reconciliation assigns `base` to the
single remove (or empty with zero removes); with two adds the first add
becomes `left` and the second `right`; with one add it becomes `right`
and `left` is empty.  Consequently a merge tool that writes the `left`
content plus one appended byte to `output` yields a tree whose new file
was written to the store with exactly the first add's content plus that
byte. -/
theorem roleFileSetAndLeftScenario :
    (∀ adds init, (role_file_contents [] adds init).base = []) ∧
    (∀ R adds init, (role_file_contents [R] adds init).base = R) ∧
    (∀ removes A B init, (role_file_contents removes [A, B] init).left = A ∧
      (role_file_contents removes [A, B] init).right = B) ∧
    (∀ removes A init, (role_file_contents removes [A] init).right = A ∧
      (role_file_contents removes [A] init).left = []) ∧
    (∀ (ui : Ui) (store : Store) (tree : Tree) (p : RepoPath)
        (settings : UserSettings) (fs : Fs) (tool : ToolOracle)
        (cid conflict : Nat) (removes : List Blob) (A B : Blob)
        (editor : MergeTool) (d : String) (st : ExitStatus) (b fid : Nat),
      tree.path_value p = some (TreeValue.Conflict cid) →
      store.read_conflict p cid = .ok conflict →
      store.extract_file_conflict_as_single_hunk p conflict =
        some ⟨removes, [A, B]⟩ →
      removes.length ≤ 1 →
      get_merge_tool_from_settings ui settings = .ok editor →
      editor.merge_tool_edits_conflict_markers = false →
      fs.mk_temp_dir = .ok d →
      (∀ q c, fs.write q c = .ok ()) →
      (∀ q, fs.set_readonly q = .ok ()) →
      (∀ prog args, tool.spawn prog args = .ok st) →
      st.success = true →
      tool.read_output = .ok (A ++ [b]) →
      store.write_file p (A ++ [b]) = .ok fid →
      run_mergetool ui store tree p settings fs tool =
        .ok (tree.set p (TreeValue.File fid false))) := by
  refine ⟨fun adds init => by simp [role_file_contents],
    fun R adds init => by simp [role_file_contents],
    fun removes A B init => ⟨by simp [role_file_contents],
      by simp [role_file_contents]⟩,
    fun removes A init => ⟨by simp [role_file_contents],
      by simp [role_file_contents]⟩, ?_⟩
  intro ui store tree p settings fs tool cid conflict removes A B editor d st
    b fid h1 h2 h3 hrem hed hmark htd hw hro hsp hsucc hout hwf
  have hr1 : ¬ removes.length > 1 := by omega
  simp [run_mergetool, locate_conflict, h1, h2, h3, hr1, hed, hmark, htd,
    write_role_files, write_role_file, hw, hro, hsp, hsucc, hout, hwf]

/-- Witness for C2: concrete roles for one remove and two adds, and the
concrete run in which the tool writes `left ++ [9]` to the output. -/
theorem roleFileSetAndLeftScenario_w :
    (role_file_contents [] [blobA, blobB] []).base = [] ∧
    (role_file_contents [blobR] [blobA, blobB] []).base = blobR ∧
    (role_file_contents [blobR] [blobA, blobB] []).left = blobA ∧
    (role_file_contents [blobR] [blobA, blobB] []).right = blobB ∧
    (role_file_contents [blobR] [blobA] []).right = blobA ∧
    (role_file_contents [blobR] [blobA] []).left = [] ∧
    run_mergetool ui0 store0 tree0 path0 settings0 fs0 tool0 =
      .ok (tree0.set path0 (TreeValue.File 42 false)) :=
  ⟨roleFileSetAndLeftScenario.1 [blobA, blobB] [],
   roleFileSetAndLeftScenario.2.1 blobR [blobA, blobB] [],
   (roleFileSetAndLeftScenario.2.2.1 [blobR] blobA blobB []).1,
   (roleFileSetAndLeftScenario.2.2.1 [blobR] blobA blobB []).2,
   (roleFileSetAndLeftScenario.2.2.2.1 [blobR] blobA []).1,
   (roleFileSetAndLeftScenario.2.2.2.1 [blobR] blobA []).2,
   roleFileSetAndLeftScenario.2.2.2.2 ui0 store0 tree0 path0 settings0 fs0
     tool0 1 0 [blobR] blobA blobB mytool ("/tmp/jj-resolve-x")
     ⟨true, some 0⟩ 9 42 rfl rfl rfl (by decide) rfl rfl rfl
     (fun _ _ => rfl) (fun _ => rfl) (fun _ _ => rfl) rfl rfl rfl⟩

/-- C4: when the tool exits successfully but the output file is empty or
byte-identical to its pre-seeded initial content (empty when
`edits_conflict_markers` is false, the materialized marker text when
true), reconciliation fails with the empty-or-unchanged error and no new
tree is produced. -/
theorem emptyOrUnchangedRejected (ui : Ui) (store : Store) (tree : Tree)
    (p : RepoPath) (settings : UserSettings) (fs : Fs) (tool : ToolOracle)
    (cid conflict : Nat) (hunk : ConflictHunk) (editor : MergeTool)
    (d : String) (st : ExitStatus) (out : Blob)
    (h1 : tree.path_value p = some (TreeValue.Conflict cid))
    (h2 : store.read_conflict p cid = .ok conflict)
    (h3 : store.extract_file_conflict_as_single_hunk p conflict = some hunk)
    (hshape : ¬(hunk.removes.length > 1 ∨ hunk.adds.length > 2))
    (hed : get_merge_tool_from_settings ui settings = .ok editor)
    (htd : fs.mk_temp_dir = .ok d)
    (hw : ∀ q c, fs.write q c = .ok ())
    (hro : ∀ q, fs.set_readonly q = .ok ())
    (hsp : ∀ prog args, tool.spawn prog args = .ok st)
    (hsucc : st.success = true)
    (hout : tool.read_output = .ok out)
    (hempty : out = [] ∨ out = (if editor.merge_tool_edits_conflict_markers
        then store.materialize_merge_result hunk else [])) :
    run_mergetool ui store tree p settings fs tool =
      .error .EmptyOrUnchanged := by
  rcases hempty with he | he <;> subst he <;>
    simp [run_mergetool, locate_conflict, h1, h2, h3, hshape, hed, htd,
      write_role_files, write_role_file, hw, hro, hsp, hsucc, hout]

/-- Witness for C4: a tool that leaves the (non-markers) output empty. -/
theorem emptyOrUnchangedRejected_w :
    run_mergetool ui0 store0 tree0 path0 settings0 fs0 toolEmptyOut =
      .error .EmptyOrUnchanged :=
  emptyOrUnchangedRejected ui0 store0 tree0 path0 settings0 fs0 toolEmptyOut
    1 0 hunk0 mytool ("/tmp/jj-resolve-x") ⟨true, some 0⟩ []
    rfl rfl rfl (by decide) rfl rfl (fun _ _ => rfl) (fun _ => rfl)
    (fun _ _ => rfl) rfl rfl (Or.inl rfl)

/-- C5: with `edits_conflict_markers` true and an accepted (non-empty,
changed) output, the output is reparsed as marker-annotated conflict
text: a reparse returning a new conflict identifier makes the path's new
tree value that updated conflict, while a reparse signalling full
resolution (none) makes it a non-executable file holding the raw output
bytes (written to the store as the output's content). -/
theorem markersReparseOutcome (ui : Ui) (store : Store) (tree : Tree)
    (p : RepoPath) (settings : UserSettings) (fs : Fs) (tool : ToolOracle)
    (cid conflict : Nat) (hunk : ConflictHunk) (editor : MergeTool)
    (d : String) (st : ExitStatus) (out : Blob) (fid : Nat)
    (h1 : tree.path_value p = some (TreeValue.Conflict cid))
    (h2 : store.read_conflict p cid = .ok conflict)
    (h3 : store.extract_file_conflict_as_single_hunk p conflict = some hunk)
    (hshape : ¬(hunk.removes.length > 1 ∨ hunk.adds.length > 2))
    (hed : get_merge_tool_from_settings ui settings = .ok editor)
    (hmark : editor.merge_tool_edits_conflict_markers = true)
    (htd : fs.mk_temp_dir = .ok d)
    (hw : ∀ q c, fs.write q c = .ok ())
    (hro : ∀ q, fs.set_readonly q = .ok ())
    (hsp : ∀ prog args, tool.spawn prog args = .ok st)
    (hsucc : st.success = true)
    (hout : tool.read_output = .ok out)
    (hne1 : out ≠ [])
    (hne2 : out ≠ store.materialize_merge_result hunk)
    (hwf : store.write_file p out = .ok fid) :
    (∀ newId, store.update_conflict_from_content p cid out = .ok (some newId) →
      run_mergetool ui store tree p settings fs tool =
        .ok (tree.set p (TreeValue.Conflict newId))) ∧
    (store.update_conflict_from_content p cid out = .ok none →
      run_mergetool ui store tree p settings fs tool =
        .ok (tree.set p (TreeValue.File fid false))) := by
  constructor
  · intro newId hupd
    simp [run_mergetool, locate_conflict, h1, h2, h3, hshape, hed, hmark, htd,
      write_role_files, write_role_file, hw, hro, hsp, hsucc, hout, hne1,
      hne2, hupd, hwf]
  · intro hupd
    simp [run_mergetool, locate_conflict, h1, h2, h3, hshape, hed, hmark, htd,
      write_role_files, write_role_file, hw, hro, hsp, hsucc, hout, hne1,
      hne2, hupd, hwf]

/-- Witness for C5: with markers mode, the same accepted output yields an
updated conflict when the reparse returns id 5, and a resolved file when
the reparse returns none. -/
theorem markersReparseOutcome_w :
    run_mergetool ui0 storeUpdSome tree0 path0 settingsMarkers fs0 toolPartial =
      .ok (tree0.set path0 (TreeValue.Conflict 5)) ∧
    run_mergetool ui0 store0 tree0 path0 settingsMarkers fs0 toolPartial =
      .ok (tree0.set path0 (TreeValue.File 42 false)) :=
  ⟨(markersReparseOutcome ui0 storeUpdSome tree0 path0 settingsMarkers fs0
      toolPartial 1 0 hunk0 mytoolMarkers ("/tmp/jj-resolve-x")
      ⟨true, some 0⟩ [5, 5] 42 rfl rfl rfl (by decide) rfl rfl rfl
      (fun _ _ => rfl) (fun _ => rfl) (fun _ _ => rfl) rfl rfl (by decide)
      (by decide) rfl).1 5 rfl,
   (markersReparseOutcome ui0 store0 tree0 path0 settingsMarkers fs0
      toolPartial 1 0 hunk0 mytoolMarkers ("/tmp/jj-resolve-x")
      ⟨true, some 0⟩ [5, 5] 42 rfl rfl rfl (by decide) rfl rfl rfl
      (fun _ _ => rfl) (fun _ => rfl) (fun _ _ => rfl) rfl rfl (by decide)
      (by decide) rfl).2 rfl⟩

/-- C8: when the external tool's exit status is not success, the run
fails with the tool-aborted error carrying that exit status and no new
tree is produced; when the status carries no numeric code, the rendered
message reports `<unknown>` explicitly instead of a numeric code. -/
theorem toolAbortedOnFailure (ui : Ui) (store : Store) (tree : Tree)
    (p : RepoPath) (settings : UserSettings) (fs : Fs) (tool : ToolOracle)
    (cid conflict : Nat) (hunk : ConflictHunk) (editor : MergeTool)
    (d : String) (st : ExitStatus)
    (h1 : tree.path_value p = some (TreeValue.Conflict cid))
    (h2 : store.read_conflict p cid = .ok conflict)
    (h3 : store.extract_file_conflict_as_single_hunk p conflict = some hunk)
    (hshape : ¬(hunk.removes.length > 1 ∨ hunk.adds.length > 2))
    (hed : get_merge_tool_from_settings ui settings = .ok editor)
    (htd : fs.mk_temp_dir = .ok d)
    (hw : ∀ q c, fs.write q c = .ok ())
    (hro : ∀ q, fs.set_readonly q = .ok ())
    (hsp : ∀ prog args, tool.spawn prog args = .ok st)
    (hfail : st.success = false) :
    run_mergetool ui store tree p settings fs tool =
      .error (.ExternalToolError (.ToolAborted st)) ∧
    (st.code = none → tool_aborted_message st =
      "Tool exited with a non-zero code (run with --verbose to see the exact invocation). Exit code: <unknown>.") := by
  constructor
  · simp [run_mergetool, locate_conflict, h1, h2, h3, hshape, hed, htd,
      write_role_files, write_role_file, hw, hro, hsp, hfail]
  · intro hc
    simp only [tool_aborted_message, exit_code_display, hc]
    rfl

/-- Witness for C8: a tool exiting unsuccessfully with no numeric code. -/
theorem toolAbortedOnFailure_w :
    run_mergetool ui0 store0 tree0 path0 settings0 fs0 toolFail =
      .error (.ExternalToolError (.ToolAborted ⟨false, none⟩)) ∧
    tool_aborted_message ⟨false, none⟩ =
      "Tool exited with a non-zero code (run with --verbose to see the exact invocation). Exit code: <unknown>." :=
  ⟨(toolAbortedOnFailure ui0 store0 tree0 path0 settings0 fs0 toolFail
      1 0 hunk0 mytool ("/tmp/jj-resolve-x") ⟨false, none⟩
      rfl rfl rfl (by decide) rfl rfl (fun _ _ => rfl) (fun _ => rfl)
      (fun _ _ => rfl) rfl).1,
   (toolAbortedOnFailure ui0 store0 tree0 path0 settings0 fs0 toolFail
      1 0 hunk0 mytool ("/tmp/jj-resolve-x") ⟨false, none⟩
      rfl rfl rfl (by decide) rfl rfl (fun _ _ => rfl) (fun _ => rfl)
      (fun _ _ => rfl) rfl).2 rfl⟩

end MergeTools
